import Mathlib

/-!
Shallow embedding of `contracts/hooks/routing-fallback/src/lib.rs` (the
`hpl-hook-routing-fallback` CosmWasm contract) and proofs of its routing,
dispatch-forwarding, fee-quoting and access-control properties.

The contract's own logic (`route`, `post_dispatch`, `quote_dispatch`, the
`SetFallbackHook` branch of `execute`) is translated directly from the source.
External collaborators that the source consumes but whose code is not part of
the file (`cw_storage_plus::Item`, `hpl_router::get_route`, `hpl_ownable::get_owner`,
message decoding from `hpl_interface`, the cosmwasm querier) are modelled as
explicit state fields and functions, as documented on each definition.
-/

namespace RoutingFallback

/-- Account address (cosmwasm `Addr`), modelled by its string form. -/
structure Addr where
  addr : String
deriving DecidableEq, Repr

/-- Raw binary payload (cosmwasm `HexBinary`), modelled as a list of bytes. -/
structure HexBinary where
  bytes : List Nat
deriving DecidableEq, Repr

/-- Subset of cosmwasm `StdError` the contract can surface: `NotFound` from an
unset `Item` load, and generic errors (e.g. address validation). -/
inductive StdError where
  | notFound : String → StdError
  | genericErr : String → StdError
deriving DecidableEq, Repr

/-- The contract's `ContractError` enum from lib.rs. -/
inductive ContractError where
  | Std : StdError → ContractError
  | PaymentError : ContractError
  | Unauthorized : ContractError
deriving DecidableEq, Repr

/-- Cosmwasm `Coin`: a denomination and an amount. -/
structure Coin where
  denom : String
  amount : Nat
deriving DecidableEq, Repr

/-- Cosmwasm `MessageInfo`: the caller and the funds attached to the call. -/
structure MessageInfo where
  sender : Addr
  funds : List Coin
deriving DecidableEq, Repr

/-- Contract-visible persistent storage.
`fallback_hook` is the `FALLBACK_HOOK: Item<Addr>` slot of lib.rs (`none` iff
the slot was never written). `routes` models the external `hpl_router` domain
table as seen through `get_route`: per the spec an absent entry and an empty
entry are equivalent, both yield `none`. `owner` models the external
`hpl_ownable` owner slot, set at instantiation. -/
structure Storage where
  fallback_hook : Option Addr
  routes : Nat → Option Addr
  owner : Addr

/-- Storage key of the fallback slot (`FALLBACK_HOOK_KEY` in lib.rs). -/
def FALLBACK_HOOK_KEY : String := "fallback_hook"

/-- Semantics of `FALLBACK_HOOK.load(storage)`: a `cw_storage_plus::Item` load
returns the stored value, or `StdError::NotFound` when never set — this is the
spec's `NotConfigured` ("not configured") failure. -/
def FALLBACK_HOOK_load (s : Storage) : Except ContractError Addr :=
  match s.fallback_hook with
  | some a => .ok a
  | none => .error (.Std (.notFound FALLBACK_HOOK_KEY))

/-- Result type of `hpl_router::get_route::<Addr>`: the queried domain together
with its optional override address. -/
structure DomainRouteSet where
  domain : Nat
  route : Option Addr
deriving DecidableEq, Repr

/-- Modelled from the spec: `hpl_router::get_route` is an external routing-table
collaborator not under src/. Per the spec it is a read of the persistent
domain-to-optional-address mapping, where entry absence equals "no override";
the lookup itself succeeds whenever storage is readable. -/
def get_route (s : Storage) (domain : Nat) : Except ContractError DomainRouteSet :=
  .ok { domain := domain, route := s.routes domain }

/-- Big-endian interpretation of a byte list. -/
def beBytes (bs : List Nat) : Nat :=
  bs.foldl (fun acc b => acc * 256 + b % 256) 0

/-- Modelled from the spec: `hpl_interface::types::Message` decoding is not
under src/. The spec treats the message as an opaque byte string whose decoding
is assumed correct and exposes exactly `dest_domain` and a content-addressed
`id`; we model the decoded message as the destination domain read from the
leading four bytes (big-endian) plus the full raw content. -/
structure Message where
  dest_domain : Nat
  raw : List Nat
deriving DecidableEq, Repr

/-- Decoding `HexBinary → Message` (the `message.clone().into()` of lib.rs),
see the modelling note on `Message`. -/
def decodeMessage (m : HexBinary) : Message :=
  { dest_domain := beBytes (m.bytes.take 4), raw := m.bytes }

/-- Modelled from the spec: the content-addressed message identifier
(`Message::id`), a derived function of the message content used only for audit
logging; modelled as the raw content itself. -/
def Message.id (m : Message) : List Nat := m.raw

/-- Hexadecimal digit for a value below 16. -/
def hexDigit (n : Nat) : Char :=
  if n < 10 then Char.ofNat (48 + n) else Char.ofNat (87 + n)

/-- Lowercase hex rendering of a byte list (`HexBinary::to_hex`). -/
def bytesToHex (bs : List Nat) : String :=
  String.join (bs.map (fun b => String.mk [hexDigit (b / 16 % 16), hexDigit (b % 16)]))

/-- `PostDispatchMsg` from `hpl_interface::hook`: metadata and message bytes. -/
structure PostDispatchMsg where
  metadata : HexBinary
  message : HexBinary
deriving DecidableEq, Repr

/-- `QuoteDispatchMsg` from `hpl_interface::hook`: metadata and message bytes. -/
structure QuoteDispatchMsg where
  metadata : HexBinary
  message : HexBinary
deriving DecidableEq, Repr

/-- `QuoteDispatchResponse`: the fee list returned by a hook. -/
structure QuoteDispatchResponse where
  fees : List Coin
deriving DecidableEq, Repr

/-- Modelled from the spec: the hook-interface wrapper produced by
`PostDispatchMsg::wrap` (from `hpl_interface`, not under src/) — the resolved
hook's "post-dispatch" entry point message, carrying the request unchanged. -/
inductive HookExecuteMsg where
  | postDispatch : PostDispatchMsg → HookExecuteMsg
deriving DecidableEq, Repr

/-- `PostDispatchMsg::wrap`: wraps the request for the downstream hook's
post-dispatch entry point, see the modelling note on `HookExecuteMsg`. -/
def PostDispatchMsg.wrap (m : PostDispatchMsg) : HookExecuteMsg := .postDispatch m

/-- Outbound wasm execute call (`wasm_execute(contract, msg, funds)`); the
serialized message is modelled by the message value itself. -/
structure WasmMsg where
  contract_addr : String
  msg : HookExecuteMsg
  funds : List Coin
deriving DecidableEq, Repr

/-- Event attribute: key/value strings. -/
structure Attribute where
  key : String
  value : String
deriving DecidableEq, Repr

/-- Cosmwasm `Event`: a type tag and ordered attributes. -/
structure Event where
  ty : String
  attributes : List Attribute
deriving DecidableEq, Repr

/-- Cosmwasm `Response`: the outbound messages and events of one invocation. -/
structure Response where
  messages : List WasmMsg
  events : List Event
deriving DecidableEq, Repr

/-- `new_event` of lib.rs: an event named under the `hpl_hook_routing::` scope. -/
def new_event (name : String) : Event :=
  { ty := "hpl_hook_routing::" ++ name, attributes := [] }

/-- `Event::add_attribute`: appends one key/value attribute. -/
def Event.add_attribute (e : Event) (k v : String) : Event :=
  { e with attributes := e.attributes ++ [{ key := k, value := v }] }

/-- The internal `route` function of lib.rs: decode the message, load the
fallback slot, look the destination domain up in the router table, and return
the override if present, otherwise the fallback. -/
def route (s : Storage) (message : HexBinary) : Except ContractError (Message × Addr) := do
  let decoded_msg := decodeMessage message
  let dest_domain := decoded_msg.dest_domain
  let fallback_hook ← FALLBACK_HOOK_load s
  let routed_hook_set ← get_route s dest_domain
  let routed_hook := routed_hook_set.route.getD fallback_hook
  return (decoded_msg, routed_hook)

/-- `post_dispatch` of lib.rs: resolve the route, build a single funds-free
wasm execute call wrapping the request, and emit the audit event
(domain, route, message_id). The `MessageInfo` argument is bound but unused in
the source (`_info`). -/
def post_dispatch (s : Storage) (_i : MessageInfo) (req : PostDispatchMsg) :
    Except ContractError Response := do
  let (decoded_msg, routed_hook) ← route s req.message
  let hook_msg : WasmMsg := { contract_addr := routed_hook.addr, msg := req.wrap, funds := [] }
  let ev := (((new_event "post_dispatch").add_attribute
      "domain" (toString decoded_msg.dest_domain)).add_attribute
      "route" routed_hook.addr).add_attribute
      "message_id" (bytesToHex decoded_msg.id)
  return { messages := [hook_msg], events := [ev] }

/-- Modelled from the spec: the downstream hook's quote-dispatch query endpoint
(`hook::quote_dispatch` over the cosmwasm querier, not under src/) — a
synchronous read-only call, keyed by hook address, metadata and message, that
returns a fee list or an upstream error. -/
def Querier : Type :=
  String → HexBinary → HexBinary → Except ContractError QuoteDispatchResponse

/-- `quote_dispatch` of lib.rs: resolve the route and forward the query, with
the same metadata and message, to the resolved hook, returning its response. -/
def quote_dispatch (s : Storage) (querier : Querier) (req : QuoteDispatchMsg) :
    Except ContractError QuoteDispatchResponse := do
  let (_, routed_hook) ← route s req.message
  let resp ← querier routed_hook.addr req.metadata req.message
  return resp

/-- Modelled from the spec: cosmwasm `deps.api.addr_validate`, which fails with
a validation error on a malformed account reference; modelled as rejecting the
empty string and accepting any other string. -/
def addr_validate (a : String) : Except ContractError Addr :=
  if a.isEmpty then .error (.Std (.genericErr "Invalid input: human address too short"))
  else .ok { addr := a }

/-- Modelled from the spec: `hpl_ownable::get_owner`, the external
access-control collaborator's owner read; the owner is recorded at
instantiation, so the read succeeds. -/
def get_owner (s : Storage) : Except ContractError Addr := .ok s.owner

/-- The `ExecuteMsg` variants whose handling lives in lib.rs itself; the
`Ownable`/`Router` variants are forwarded verbatim to external collaborators
and are not modelled. -/
inductive ExecuteMsg where
  | PostDispatch : PostDispatchMsg → ExecuteMsg
  | SetFallbackHook : String → ExecuteMsg
deriving DecidableEq, Repr

/-- `execute` of lib.rs restricted to the locally handled variants. The
`SetFallbackHook` branch checks the caller against the owner (`ensure_eq`
with `Unauthorized`), validates the address, saves it into the fallback slot
and emits the audit event. State passing is explicit: success returns the new
storage alongside the response. -/
def execute (s : Storage) (i : MessageInfo) (msg : ExecuteMsg) :
    Except ContractError (Storage × Response) :=
  match msg with
  | .PostDispatch req => do
      let r ← post_dispatch s i req
      return (s, r)
  | .SetFallbackHook hook => do
      let owner ← get_owner s
      if owner = i.sender then do
        let fallback_hook ← addr_validate hook
        let s2 : Storage := { s with fallback_hook := some fallback_hook }
        let ev := ((new_event "set_fallback_hook").add_attribute
            "sender" i.sender.addr).add_attribute "fallback-hook" hook
        return (s2, { messages := [], events := [ev] })
      else .error .Unauthorized

/-- The storage an invocation leaves behind under the environment's
transactional model: the returned storage on success, the unchanged input
storage on error (all mutations rolled back). -/
def applyExecute (s : Storage) (r : Except ContractError (Storage × Response)) : Storage :=
  match r with
  | .ok p => p.1
  | .error _ => s

/-! Concrete fixtures used by counterexamples and witnesses: a storage with the
fallback set and one override (domain 1 ↦ route1), the same storage with the
fallback slot never written, and small concrete messages. -/

/-- Storage with fallback configured and an override for domain 1. -/
def sF : Storage :=
  { fallback_hook := some { addr := "fallback_hook_addr" },
    routes := fun d => if d = 1 then some { addr := "route1" } else none,
    owner := { addr := "owner" } }

/-- Same routing table and owner as `sF`, but the fallback slot never set. -/
def sNoF : Storage := { sF with fallback_hook := none }

/-- Message bytes decoding to destination domain 1 (which has an override). -/
def m1 : HexBinary := { bytes := [0, 0, 0, 1, 42] }

/-- Message bytes decoding to destination domain 2 (no override). -/
def m2 : HexBinary := { bytes := [0, 0, 0, 2, 7] }

/-- Concrete post-dispatch request for domain 1. -/
def req1 : PostDispatchMsg := { metadata := { bytes := [9, 9] }, message := m1 }

/-- Concrete quote-dispatch request for domain 1. -/
def qreq1 : QuoteDispatchMsg := { metadata := { bytes := [9, 9] }, message := m1 }

/-- Concrete downstream querier: charges the byte-length of the metadata. -/
def q1 : Querier :=
  fun a md _ => .ok { fees := [{ denom := a, amount := md.bytes.length }] }

/-- Caller info for the owner of `sF`, with no funds. -/
def infoOwner : MessageInfo := { sender := { addr := "owner" }, funds := [] }

/-- Caller info for a non-owner, with some funds attached. -/
def infoOther : MessageInfo := { sender := { addr := "mallory" }, funds := [{ denom := "utest", amount := 3 }] }

/-- Characterization of `route`: it fails with the not-found error when the
fallback slot is unset, and otherwise returns the decoded message with the
override if present, else the fallback. -/
theorem route_eq (s : Storage) (m : HexBinary) :
    route s m = match s.fallback_hook with
      | some fb => .ok (decodeMessage m, (s.routes (decodeMessage m).dest_domain).getD fb)
      | none => .error (.Std (.notFound FALLBACK_HOOK_KEY)) := by
  cases hf : s.fallback_hook <;>
    simp [route, FALLBACK_HOOK_load, get_route, hf, Bind.bind, Except.bind, Pure.pure, Except.pure]

/-- A successful `route` always carries the decoded input message. -/
theorem route_ok_fst (s : Storage) (m : HexBinary) (p : Message × Addr)
    (h : route s m = .ok p) : p.1 = decodeMessage m := by
  rcases hf : s.fallback_hook with _ | fb <;> rw [route_eq, hf] at h
  · cases h
  · injection h with h1
    rw [← h1]

/-- A `route` failure propagates unchanged through `post_dispatch`. -/
theorem post_dispatch_of_route_error (s : Storage) (i : MessageInfo)
    (req : PostDispatchMsg) (e : ContractError)
    (h : route s req.message = .error e) : post_dispatch s i req = .error e := by
  unfold post_dispatch
  rw [h]
  rfl

/-- A `route` failure propagates unchanged through `quote_dispatch`. -/
theorem quote_dispatch_of_route_error (s : Storage) (q : Querier)
    (req : QuoteDispatchMsg) (e : ContractError)
    (h : route s req.message = .error e) : quote_dispatch s q req = .error e := by
  unfold quote_dispatch
  rw [h]
  rfl

/-- C1, counterexample: in a storage where domain 1 has the non-empty override
`route1` but the fallback slot was never set, `route` on a domain-1 message
fails with the not-found error instead of returning the override — the result
does depend on whether the fallback slot holds a value, refuting the claim as
stated. -/
theorem c1_counterexample :
    sNoF.routes (decodeMessage m1).dest_domain = some { addr := "route1" } ∧
    route sNoF m1 = .error (.Std (.notFound FALLBACK_HOOK_KEY)) := by
  constructor <;> rfl

/-- C1, amended: for every domain with a non-empty override entry A, as long as
the Fallback Store holds some value, route resolution returns A no matter
which value the fallback holds; when the fallback slot is unset, resolution
fails instead of returning A. -/
theorem c1_override_wins (s : Storage) (m : HexBinary) (A : Addr)
    (hfb : s.fallback_hook.isSome)
    (hov : s.routes (decodeMessage m).dest_domain = some A) :
    route s m = .ok (decodeMessage m, A) := by
  obtain ⟨fb, hf⟩ := Option.isSome_iff_exists.mp hfb
  rw [route_eq, hf, hov]
  rfl

/-- C1 witness: in `sF` the fallback is set and domain 1 is overridden to
`route1`; routing a domain-1 message yields the override. -/
theorem c1_override_wins_witness :
    sF.fallback_hook.isSome = true ∧
    route sF m1 = .ok (decodeMessage m1, { addr := "route1" }) :=
  ⟨rfl, c1_override_wins sF m1 { addr := "route1" } rfl rfl⟩

/-- C2: for every domain with no override entry, route resolution returns
exactly the address currently stored in the Fallback Store. -/
theorem c2_fallback_used (s : Storage) (m : HexBinary) (fb : Addr)
    (hov : s.routes (decodeMessage m).dest_domain = none)
    (hfb : s.fallback_hook = some fb) :
    route s m = .ok (decodeMessage m, fb) := by
  rw [route_eq, hfb, hov]
  rfl

/-- C2 witness: domain 2 has no override in `sF`, so the stored fallback is
returned. -/
theorem c2_fallback_used_witness :
    sF.routes (decodeMessage m2).dest_domain = none ∧
    route sF m2 = .ok (decodeMessage m2, { addr := "fallback_hook_addr" }) :=
  ⟨rfl, c2_fallback_used sF m2 { addr := "fallback_hook_addr" } rfl rfl⟩

/-- C3: when the message resolves, `post_dispatch` produces exactly one
outbound call, addressed to the resolved hook, plus one audit event whose
domain, route and message_id attributes are the decoded message's destination
domain, the resolved address, and the decoded message's content-addressed id. -/
theorem c3_post_dispatch_effects (s : Storage) (i : MessageInfo)
    (req : PostDispatchMsg) (dm : Message) (rh : Addr)
    (h : route s req.message = .ok (dm, rh)) :
    dm = decodeMessage req.message ∧
    post_dispatch s i req = .ok
      { messages := [{ contract_addr := rh.addr, msg := req.wrap, funds := [] }],
        events := [{ ty := "hpl_hook_routing::post_dispatch",
                     attributes := [{ key := "domain", value := toString dm.dest_domain },
                                    { key := "route", value := rh.addr },
                                    { key := "message_id", value := bytesToHex dm.id }] }] } := by
  constructor
  · exact (route_ok_fst s req.message (dm, rh) h).symm ▸ rfl
  · unfold post_dispatch
    rw [h]
    rfl

/-- C3 witness: dispatching the concrete domain-1 request in `sF` yields the
single call to `route1` and the matching audit event. -/
theorem c3_post_dispatch_effects_witness :
    decodeMessage m1 = decodeMessage req1.message ∧
    post_dispatch sF infoOwner req1 = .ok
      { messages := [{ contract_addr := "route1", msg := req1.wrap, funds := [] }],
        events := [{ ty := "hpl_hook_routing::post_dispatch",
                     attributes := [{ key := "domain",
                                      value := toString (decodeMessage m1).dest_domain },
                                    { key := "route", value := "route1" },
                                    { key := "message_id",
                                      value := bytesToHex (decodeMessage m1).id }] }] } :=
  c3_post_dispatch_effects sF infoOwner req1 (decodeMessage m1) { addr := "route1" } rfl

/-- C4: when the message resolves, `quote_dispatch` returns exactly what the
downstream hook's quote endpoint returns for the same metadata and message —
the whole `Except` result, response or upstream error, verbatim. -/
theorem c4_quote_verbatim (s : Storage) (q : Querier) (req : QuoteDispatchMsg)
    (dm : Message) (rh : Addr)
    (h : route s req.message = .ok (dm, rh)) :
    quote_dispatch s q req = q rh.addr req.metadata req.message := by
  unfold quote_dispatch
  rw [h]
  show Except.bind (q rh.addr req.metadata req.message) _ = _
  cases q rh.addr req.metadata req.message <;> rfl

/-- C4 witness: quoting the concrete domain-1 request in `sF` returns the
concrete querier's answer for `route1` with the same metadata and message. -/
theorem c4_quote_verbatim_witness :
    route sF qreq1.message = .ok (decodeMessage m1, { addr := "route1" }) ∧
    quote_dispatch sF q1 qreq1 = q1 "route1" qreq1.metadata qreq1.message :=
  ⟨rfl, c4_quote_verbatim sF q1 qreq1 (decodeMessage m1) { addr := "route1" } rfl⟩

/-- C5: `SetFallbackHook` by any caller other than the owner fails with
`Unauthorized`, and the fallback slot the invocation leaves behind is
unchanged. -/
theorem c5_set_fallback_unauthorized (s : Storage) (i : MessageInfo) (hook : String)
    (h : i.sender ≠ s.owner) :
    execute s i (.SetFallbackHook hook) = .error .Unauthorized ∧
    (applyExecute s (execute s i (.SetFallbackHook hook))).fallback_hook = s.fallback_hook := by
  have hne : ¬s.owner = i.sender := fun he => h he.symm
  refine ⟨?_, ?_⟩ <;>
    simp [execute, get_owner, hne, applyExecute, Bind.bind, Except.bind]

/-- C5 witness: the non-owner `mallory` cannot replace the fallback of `sF`. -/
theorem c5_set_fallback_unauthorized_witness :
    infoOther.sender ≠ sF.owner ∧
    execute sF infoOther (.SetFallbackHook "newhook") = .error .Unauthorized ∧
    (applyExecute sF (execute sF infoOther (.SetFallbackHook "newhook"))).fallback_hook
      = sF.fallback_hook :=
  ⟨by decide, c5_set_fallback_unauthorized sF infoOther "newhook" (by decide)⟩

/-- C6: in a state whose fallback slot was never written, loading the slot,
`route`, `post_dispatch` and `quote_dispatch` all fail with the not-found
("not configured") error instead of producing an address. -/
theorem c6_unset_fallback_fails (s : Storage) (m : HexBinary) (i : MessageInfo)
    (req : PostDispatchMsg) (q : Querier) (qreq : QuoteDispatchMsg)
    (h : s.fallback_hook = none) :
    FALLBACK_HOOK_load s = .error (.Std (.notFound FALLBACK_HOOK_KEY)) ∧
    route s m = .error (.Std (.notFound FALLBACK_HOOK_KEY)) ∧
    post_dispatch s i req = .error (.Std (.notFound FALLBACK_HOOK_KEY)) ∧
    quote_dispatch s q qreq = .error (.Std (.notFound FALLBACK_HOOK_KEY)) := by
  refine ⟨?_, ?_, ?_, ?_⟩
  · simp [FALLBACK_HOOK_load, h]
  · rw [route_eq, h]
  · exact post_dispatch_of_route_error s i req _ (by rw [route_eq, h])
  · exact quote_dispatch_of_route_error s q qreq _ (by rw [route_eq, h])

/-- C6 witness: in `sNoF` every read of the fallback slot surfaces the
not-found error. -/
theorem c6_unset_fallback_fails_witness :
    sNoF.fallback_hook = none ∧
    FALLBACK_HOOK_load sNoF = .error (.Std (.notFound FALLBACK_HOOK_KEY)) ∧
    route sNoF m2 = .error (.Std (.notFound FALLBACK_HOOK_KEY)) ∧
    post_dispatch sNoF infoOwner req1 = .error (.Std (.notFound FALLBACK_HOOK_KEY)) ∧
    quote_dispatch sNoF q1 qreq1 = .error (.Std (.notFound FALLBACK_HOOK_KEY)) :=
  ⟨rfl, c6_unset_fallback_fails sNoF m2 infoOwner req1 q1 qreq1 rfl⟩

/-- C7: a successful `post_dispatch` constructs exactly one outbound call,
addressed to the resolved hook's post-dispatch entry point, wrapping the
original metadata and message bytes unchanged, with an empty funds list. -/
theorem c7_forward_unchanged (s : Storage) (i : MessageInfo)
    (req : PostDispatchMsg) (dm : Message) (rh : Addr)
    (h : route s req.message = .ok (dm, rh)) :
    (post_dispatch s i req).map Response.messages =
      .ok [{ contract_addr := rh.addr,
             msg := HookExecuteMsg.postDispatch
               { metadata := req.metadata, message := req.message },
             funds := [] }] := by
  unfold post_dispatch
  rw [h]
  rfl

/-- C7 witness: the concrete domain-1 dispatch in `sF` forwards `req1`
unchanged to `route1` with no funds. -/
theorem c7_forward_unchanged_witness :
    (post_dispatch sF infoOwner req1).map Response.messages =
      .ok [{ contract_addr := "route1",
             msg := HookExecuteMsg.postDispatch
               { metadata := req1.metadata, message := req1.message },
             funds := [] }] :=
  c7_forward_unchanged sF infoOwner req1 (decodeMessage m1) { addr := "route1" } rfl

/-- C8: executing `SetFallbackHook` twice in succession with the same address,
by the owner, leaves every message routing exactly as after executing it
once. -/
theorem c8_set_fallback_idempotent (s : Storage) (i : MessageInfo) (hook : String)
    (fb : Addr) (howner : s.owner = i.sender) (hv : addr_validate hook = .ok fb)
    (m : HexBinary) :
    route (applyExecute (applyExecute s (execute s i (.SetFallbackHook hook)))
        (execute (applyExecute s (execute s i (.SetFallbackHook hook))) i
          (.SetFallbackHook hook))) m
      = route (applyExecute s (execute s i (.SetFallbackHook hook))) m := by
  simp [execute, get_owner, howner, hv, applyExecute, Bind.bind, Except.bind,
    Pure.pure, Except.pure]

/-- C8 witness: the owner setting `sF`'s fallback to `newhook` twice routes the
concrete domain-2 message as after setting it once. -/
theorem c8_set_fallback_idempotent_witness :
    sF.owner = infoOwner.sender ∧
    addr_validate "newhook" = .ok { addr := "newhook" } ∧
    route (applyExecute (applyExecute sF (execute sF infoOwner (.SetFallbackHook "newhook")))
        (execute (applyExecute sF (execute sF infoOwner (.SetFallbackHook "newhook"))) infoOwner
          (.SetFallbackHook "newhook"))) m2
      = route (applyExecute sF (execute sF infoOwner (.SetFallbackHook "newhook"))) m2 :=
  ⟨rfl, rfl, c8_set_fallback_idempotent sF infoOwner "newhook" { addr := "newhook" } rfl rfl m2⟩

/-- C9: every successful resolution returns an address that is explicitly the
stored override or the explicitly stored fallback — never an implicit
empty/zero default — and every resolution error propagates unchanged through
both `post_dispatch` and `quote_dispatch`. -/
theorem c9_no_silent_route (s : Storage) (i : MessageInfo) (q : Querier)
    (req : PostDispatchMsg) (qreq : QuoteDispatchMsg) :
    (∀ dm a, route s req.message = .ok (dm, a) →
        s.routes dm.dest_domain = some a ∨
          (s.routes dm.dest_domain = none ∧ s.fallback_hook = some a)) ∧
    (∀ e, route s req.message = .error e → post_dispatch s i req = .error e) ∧
    (∀ e, route s qreq.message = .error e → quote_dispatch s q qreq = .error e) := by
  refine ⟨?_, fun e he => post_dispatch_of_route_error s i req e he,
    fun e he => quote_dispatch_of_route_error s q qreq e he⟩
  intro dm a h
  rcases hf : s.fallback_hook with _ | fb <;> rw [route_eq, hf] at h
  · cases h
  · injection h with h1
    injection h1 with h2 h3
    subst h2
    subst h3
    have key : ∀ o : Option Addr,
        o = some (o.getD fb) ∨ (o = none ∧ some fb = some (o.getD fb)) := by
      intro o
      cases o with
      | none => right; exact ⟨rfl, rfl⟩
      | some x => left; rfl
    exact key (s.routes (decodeMessage req.message).dest_domain)

/-- C9 witness: in `sNoF` resolution of the concrete request fails with the
explicit not-found error and `post_dispatch` surfaces exactly that error. -/
theorem c9_no_silent_route_witness :
    route sNoF req1.message = .error (.Std (.notFound FALLBACK_HOOK_KEY)) ∧
    post_dispatch sNoF infoOther req1 = .error (.Std (.notFound FALLBACK_HOOK_KEY)) :=
  ⟨rfl, (c9_no_silent_route sNoF infoOther q1 req1 qreq1).2.1 _ rfl⟩

/-- C10: `post_dispatch` never reads the caller info — two invocations on the
same storage and request that differ only in sender and attached funds return
identical results. -/
theorem c10_info_independent (s : Storage) (a b : MessageInfo)
    (req : PostDispatchMsg) :
    post_dispatch s a req = post_dispatch s b req := rfl

end RoutingFallback
